import Mathlib

/-!
Verification of the sitectl remote-execution layer: a shallow embedding of
the `config` and `docker` packages and of the `port-forward` command, with
theorems checking the natural-language specification against the code.

External effects (file system, SSH transport, Docker daemon, terminal) are
modelled as explicit environment records; each embedded function mirrors the
control flow of its Go source line by line.
-/

deriving instance DecidableEq for Except

namespace Sitectl

/-! ## Go string primitives -/

/-- `strings.Split s sep` for a single-character separator: splits at every
occurrence of `sep`, keeping empty segments; the empty string yields `[""]`. -/
def splitCharAux (sep : Char) : List Char → List Char → List String
  | [], acc => [String.mk acc.reverse]
  | c :: cs, acc =>
    if c = sep then String.mk acc.reverse :: splitCharAux sep cs []
    else splitCharAux sep cs (c :: acc)

def splitChar (sep : Char) (s : String) : List String :=
  splitCharAux sep s.data []

/-- Joining with a single-character separator (inverse of `splitChar`). -/
def joinWith (sep : Char) : List String → String
  | [] => ""
  | [s] => s
  | s :: rest => s ++ sep.toString ++ joinWith sep rest

/-- `strings.SplitN s "=" 2`: at most two segments, the second keeps any
later `=` characters. -/
def goSplitN2Eq (s : String) : List String :=
  match splitChar '=' s with
  | [] => [s]
  | [a] => [a]
  | a :: rest => [a, joinWith '=' rest]

/-- ASCII model of the whitespace set trimmed by `strings.TrimSpace`. -/
def isSpaceChar (c : Char) : Bool :=
  c = ' ' || c = '\t' || c = '\n' || c = '\x0d' || c = '\x0b' || c = '\x0c'

/-- `strings.TrimSpace`. -/
def goTrimSpace (s : String) : String :=
  String.mk (((s.data.dropWhile isSpaceChar).reverse.dropWhile isSpaceChar).reverse)

def digitsValAux : List Char → Nat → Option Nat
  | [], acc => some acc
  | c :: cs, acc =>
    if c.isDigit then digitsValAux cs (acc * 10 + (c.toNat - '0'.toNat)) else none

/-- Value of a list of decimal digit characters; `none` if empty or any
character is not a digit. -/
def digitsVal : List Char → Option Nat
  | [] => none
  | cs => digitsValAux cs 0

/-- `strconv.Atoi`: optional sign, at least one digit, nothing else, and the
value must fit in a signed 64-bit integer (out of range is an error). -/
def goAtoi (s : String) : Option Int :=
  match s.data with
  | [] => none
  | c :: rest =>
    let (neg, ds) :=
      if c = '-' then (true, rest)
      else if c = '+' then (false, rest)
      else (false, c :: rest)
    match digitsVal ds with
    | none => none
    | some n =>
      let v : Int := if neg then -(n : Int) else (n : Int)
      if v < -(2 ^ 63) ∨ 2 ^ 63 ≤ v then none else some v

/-! ## Go `path/filepath` (unix rules) -/

/-- One step of `filepath.Clean`'s element processing: `out` is the stack of
kept elements in reverse order. -/
def cleanStep (rooted : Bool) (out : List String) (comp : String) : List String :=
  if comp = ".." then
    match out with
    | [] => if rooted then [] else [".."]
    | a :: rest => if a = ".." then comp :: out else rest
  else comp :: out

/-- `filepath.Clean` for unix paths. -/
def goClean (p : String) : String :=
  if p = "" then "."
  else
    let rooted := match p.data with
      | '/' :: _ => true
      | _ => false
    let comps := (splitChar '/' p).filter (fun s => s ≠ "" && s ≠ ".")
    let out := (comps.foldl (cleanStep rooted) []).reverse
    match out with
    | [] => if rooted then "/" else "."
    | _ => (if rooted then "/" else "") ++ joinWith '/' out

/-- `filepath.Join`: drop empty elements, join with `/`, then `Clean`; all
elements empty gives the empty string. -/
def goFilepathJoin (elems : List String) : String :=
  match elems.filter (fun s => s ≠ "") with
  | [] => ""
  | ne => goClean (joinWith '/' ne)

/-- `filepath.Dir`: everything up to and including the final `/`, cleaned;
no separator gives `"."`. -/
def goFilepathDir (p : String) : String :=
  goClean (String.mk ((p.data.reverse.dropWhile (fun c => c ≠ '/')).reverse))

/-- True exactly on `Except.error`. -/
def isErr {ε α : Type} : Except ε α → Bool
  | .error _ => true
  | .ok _ => false

/-! ## Data model: `config.Context` -/

inductive ContextType
  | ContextLocal
  | ContextRemote
deriving DecidableEq, Repr

/-- `config.Context` (the fields the remote-execution layer reads). -/
structure Context where
  name : String := ""
  dockerHostType : ContextType
  dockerSocket : String := ""
  projectName : String := ""
  projectDir : String := ""
  sshUser : String := ""
  sshHostname : String := ""
  sshPort : Nat := 0
  sshKeyPath : String := ""
  runSudo : Bool := false
  profile : String := ""

/-! ## Docker data model (the slice of the Docker API the code reads) -/

structure Mount where
  destination : String
deriving DecidableEq, Repr

structure ContainerConfig where
  env : List String
deriving DecidableEq, Repr

/-- `container.InspectResponse`, restricted to the consulted fields:
bind mounts, declared environment, and per-network IP addresses. -/
structure InspectResponse where
  mounts : List Mount := []
  config : ContainerConfig := ⟨[]⟩
  networks : List (String × String) := []
deriving DecidableEq, Repr

/-- `container.Summary`, restricted to names and labels. -/
structure Summary where
  names : List String := []
  labels : List (String × String) := []
deriving DecidableEq, Repr

/-! ## `docker.GetConfigEnv` -/

def envNotFoundMsg (envName containerName : String) : String :=
  "environment variable " ++ envName ++ " not found in container " ++ containerName

/-- The scan loop inside `GetConfigEnv`: first entry that `SplitN`s into
exactly two parts with the first equal to `envName` wins. -/
def envLookupLoop (envs : List String) (envName containerName : String) :
    Except String String :=
  match envs with
  | [] => .error (envNotFoundMsg envName containerName)
  | env :: rest =>
    match goSplitN2Eq env with
    | [p0, p1] => if p0 = envName then .ok p1 else envLookupLoop rest envName containerName
    | _ => envLookupLoop rest envName containerName

/-- `docker.GetConfigEnv`; the container inspection outcome is passed in as
an `Except` (the Docker daemon is external). -/
def GetConfigEnv (inspected : Except String InspectResponse)
    (containerName envName : String) : Except String String :=
  match inspected with
  | .error e => .error ("error inspecting container " ++ containerName ++ ": " ++ e)
  | .ok containerJSON => envLookupLoop containerJSON.config.env envName containerName

/-- C3's wording of the lookup: the value of the first entry whose prefix
before the first `=` equals the name exactly; entries without `=` never
match; the value keeps any further `=` characters. -/
def claimEnvLookup : List String → String → Option String
  | [], _ => none
  | e :: rest, name =>
    match splitChar '=' e with
    | [_] => claimEnvLookup rest name
    | a :: vs => if a = name then some (joinWith '=' vs) else claimEnvLookup rest name
    | [] => claimEnvLookup rest name

theorem splitCharAux_ne_nil (sep : Char) (cs acc : List Char) :
    splitCharAux sep cs acc ≠ [] := by
  induction cs generalizing acc with
  | nil => simp [splitCharAux]
  | cons c cs ih =>
    simp only [splitCharAux]
    split
    · simp
    · exact ih _

theorem envLookupLoop_eq_claim (envs : List String) (name cn : String) :
    envLookupLoop envs name cn =
      match claimEnvLookup envs name with
      | some v => Except.ok v
      | none => Except.error (envNotFoundMsg name cn) := by
  induction envs with
  | nil => rfl
  | cons e rest ih =>
    simp only [envLookupLoop, claimEnvLookup, goSplitN2Eq]
    rcases h : splitChar '=' e with _ | ⟨a, _ | ⟨b, vs⟩⟩
    · exact ih
    · exact ih
    · by_cases ha : a = name <;> simp [ha, ih]

/-- C3: for every container environment list and name, `GetConfigEnv`
returns the substring after the first `=` of the first entry whose name part
matches exactly, and a not-found error when nothing matches; in particular
`GetConfigEnv ["A=1", "B=2=3"] "B" = "2=3"`. -/
theorem getConfigEnv_first_exact_match (resp : InspectResponse) (cn name : String) :
    (GetConfigEnv (Except.ok resp) cn name =
      match claimEnvLookup resp.config.env name with
      | some v => Except.ok v
      | none => Except.error (envNotFoundMsg name cn)) ∧
    GetConfigEnv (Except.ok ⟨[], ⟨["A=1", "B=2=3"]⟩, []⟩) "c" "B" = Except.ok "2=3" ∧
    GetConfigEnv (Except.ok ⟨[], ⟨["A=1", "B=2=3"]⟩, []⟩) "c" "MISSING" =
      Except.error (envNotFoundMsg "MISSING" "c") := by
  refine ⟨?_, by decide, by decide⟩
  exact envLookupLoop_eq_claim resp.config.env name cn

/-! ## `Context.ReadSmallFile`

The file system and the SSH/SFTP transport are external; `FsEnv` records the
outcome each of their operations would produce. -/

structure FsEnv where
  /-- The `ReadSmallFileFunc` override field (`nil` in production). -/
  readSmallFileFunc : Option (String → String) := none
  /-- `os.ReadFile`: `none` models a read error. -/
  localRead : String → Option String := fun _ => none
  /-- Whether `DialSSH` succeeds. -/
  dialSSHOk : Bool := true
  /-- Whether `sftp.NewClient` succeeds. -/
  sftpOk : Bool := true
  /-- Whether `sftpClient.Open` succeeds for a given path. -/
  remoteOpenOk : String → Bool := fun _ => true
  /-- `io.ReadAll` on the remote file: `none` models a read error. -/
  remoteReadAll : String → Option String := fun _ => none

/-- `config.Context.ReadSmallFile`: every failure branch logs and returns
the empty string; the function never reports an error to its caller. -/
def ReadSmallFile (c : Context) (fs : FsEnv) (filename : String) : String :=
  match fs.readSmallFileFunc with
  | some f => f filename
  | none =>
    if c.dockerHostType = ContextType.ContextLocal then
      match fs.localRead filename with
      | none => ""
      | some data => data
    else if !fs.dialSSHOk then ""
    else if !fs.sftpOk then ""
    else if !fs.remoteOpenOk filename then ""
    else
      match fs.remoteReadAll filename with
      | none => ""
      | some data => data

/-! ## `docker.GetSecret` -/

/-- `docker.GetSecret`: if the inspected container has a bind mount whose
destination is `filepath.Join "/run/secrets" secretName`, read
`filepath.Join c.projectDir "secrets" secretName` with the context's
small-file reader; otherwise fall back to `GetConfigEnv`. -/
def GetSecret (inspected : Except String InspectResponse) (c : Context)
    (reader : String → String) (containerName secretName : String) :
    Except String String :=
  match inspected with
  | .error e => .error e
  | .ok containerJSON =>
    let expectedTarget := goFilepathJoin ["/run/secrets", secretName]
    if containerJSON.mounts.any (fun mount => mount.destination = expectedTarget) then
      let secretFilePath := goFilepathJoin [c.projectDir, "secrets", secretName]
      .ok (reader secretFilePath)
    else
      GetConfigEnv inspected containerName secretName

/-- C4: when the container has a mount at `/run/secrets/<name>`, `GetSecret`
returns the file content read by the context's small-file reader from
`<ProjectDir>/secrets/<name>` — for every environment list, so a same-named
environment variable is never consulted — and only when no such mount exists
does it fall back to the environment lookup. The two join hypotheses pin the
`filepath.Join` results to the literal paths the claim names; they hold for
every ordinary secret name and project directory. -/
theorem getSecret_mount_wins (resp : InspectResponse) (c : Context)
    (reader : String → String) (cn name : String)
    (h1 : goFilepathJoin ["/run/secrets", name] = "/run/secrets/" ++ name)
    (h2 : goFilepathJoin [c.projectDir, "secrets", name] =
      c.projectDir ++ "/secrets/" ++ name) :
    ((resp.mounts.any fun m => m.destination = "/run/secrets/" ++ name) = true →
      GetSecret (Except.ok resp) c reader cn name =
        Except.ok (reader (c.projectDir ++ "/secrets/" ++ name))) ∧
    ((resp.mounts.any fun m => m.destination = "/run/secrets/" ++ name) = false →
      GetSecret (Except.ok resp) c reader cn name =
        GetConfigEnv (Except.ok resp) cn name) := by
  constructor <;> intro hm <;> simp [GetSecret, h1, h2, hm]

def readerW : String → String := fun _ => "file-secret-value"

def contextW : Context :=
  { dockerHostType := ContextType.ContextLocal, projectDir := "/srv/app" }

def respW : InspectResponse :=
  { mounts := [⟨"/run/secrets/DB_ROOT_PASSWORD"⟩],
    config := ⟨["DB_ROOT_PASSWORD=env-value"]⟩ }

/-- C4 witness: a container with both the mounted secret and a same-named
environment variable; the mounted file's content is returned. -/
theorem getSecret_mount_wins_witness :
    GetSecret (Except.ok respW) contextW readerW "db" "DB_ROOT_PASSWORD" =
      Except.ok (readerW ("/srv/app" ++ "/secrets/" ++ "DB_ROOT_PASSWORD")) :=
  (getSecret_mount_wins respW contextW readerW "db" "DB_ROOT_PASSWORD"
    (by decide) (by decide)).1 (by decide)

/-- C10: `ReadSmallFile` never signals failure: with no override installed,
every failure mode — unreadable local file, failed SSH dial, failed SFTP
session, unopenable or unreadable remote file — returns the empty string;
consequently `GetSecret`, when the mount exists but the backing secrets file
cannot be read, returns an empty secret with no error. -/
theorem readSmallFile_total_empty_on_failure (c : Context) (fs : FsEnv)
    (path : String) (resp : InspectResponse) (name : String)
    (hover : fs.readSmallFileFunc = none) :
    ((c.dockerHostType = ContextType.ContextLocal → fs.localRead path = none →
        ReadSmallFile c fs path = "") ∧
      (c.dockerHostType = ContextType.ContextRemote → fs.dialSSHOk = false →
        ReadSmallFile c fs path = "") ∧
      (c.dockerHostType = ContextType.ContextRemote → fs.sftpOk = false →
        ReadSmallFile c fs path = "") ∧
      (c.dockerHostType = ContextType.ContextRemote → fs.remoteOpenOk path = false →
        ReadSmallFile c fs path = "") ∧
      (c.dockerHostType = ContextType.ContextRemote → fs.remoteReadAll path = none →
        ReadSmallFile c fs path = "")) ∧
    ((resp.mounts.any fun m =>
        m.destination = goFilepathJoin ["/run/secrets", name]) = true →
      ReadSmallFile c fs (goFilepathJoin [c.projectDir, "secrets", name]) = "" →
      GetSecret (Except.ok resp) c (ReadSmallFile c fs) "ctr" name =
        Except.ok "") := by
  refine ⟨⟨?_, ?_, ?_, ?_, ?_⟩, ?_⟩
  · intro hl hr; simp [ReadSmallFile, hover, hl, hr]
  · intro hl hr; simp [ReadSmallFile, hover, hl, hr]
  · intro hl hr
    cases hd : fs.dialSSHOk <;> simp [ReadSmallFile, hover, hl, hr, hd]
  · intro hl hr
    cases hd : fs.dialSSHOk <;> cases hs : fs.sftpOk <;>
      simp [ReadSmallFile, hover, hl, hr, hd, hs]
  · intro hl hr
    cases hd : fs.dialSSHOk <;> cases hs : fs.sftpOk <;>
      cases ho : fs.remoteOpenOk path <;>
      simp [ReadSmallFile, hover, hl, hr, hd, hs, ho]
  · intro hm hread
    simp [GetSecret, hm, hread]

def fsEnvW : FsEnv := { localRead := fun _ => none }

/-- C10 witness: a local context whose secrets file is unreadable; the
mounted secret resolves to the empty string with no error. -/
theorem readSmallFile_total_empty_on_failure_witness :
    (ContextType.ContextLocal = ContextType.ContextLocal →
        fsEnvW.localRead "/srv/app/secrets/DB_ROOT_PASSWORD" = none →
        ReadSmallFile contextW fsEnvW "/srv/app/secrets/DB_ROOT_PASSWORD" = "") ∧
    GetSecret (Except.ok respW) contextW (ReadSmallFile contextW fsEnvW)
        "ctr" "DB_ROOT_PASSWORD" = Except.ok "" :=
  ⟨(readSmallFile_total_empty_on_failure contextW fsEnvW
      "/srv/app/secrets/DB_ROOT_PASSWORD" respW "DB_ROOT_PASSWORD" rfl).1.1,
    (readSmallFile_total_empty_on_failure contextW fsEnvW
      "/srv/app/secrets/DB_ROOT_PASSWORD" respW "DB_ROOT_PASSWORD" rfl).2
      (by decide) (by decide)⟩

/-! ## `config.Context.RunCommand`

The subprocess, the SSH session and the terminal are external; the two
environment records below fix the outcome of each of their operations.
`WaitOutcome.exitCode n` models `session.Wait` returning an
`*ssh.ExitError` with status `n` (Go only produces it for `n ≠ 0`);
`WaitOutcome.otherErr` models any other session error. -/

inductive WaitOutcome
  | ok
  | exitCode (n : Int)
  | otherErr (msg : String)
deriving DecidableEq, Repr

structure LocalEnv where
  /-- Whether `cmd.StdoutPipe` succeeds. -/
  stdoutPipeOk : Bool := true
  /-- Whether `cmd.Start` succeeds. -/
  startOk : Bool := true
  /-- The lines produced by the subprocess on stdout, as scanned by
  `bufio.Scanner` (line terminators already stripped). -/
  stdoutLines : List String := []
  /-- `cmd.Wait`: `none` is success, `some e` is a spawn/non-zero-exit error. -/
  waitErr : Option String := none

structure RemoteEnv where
  /-- Whether `DialSSH` succeeds. -/
  dialOk : Bool := true
  /-- Whether `sshClient.NewSession` succeeds. -/
  sessionOk : Bool := true
  /-- Whether `session.RequestPty` succeeds. -/
  ptyOk : Bool := true
  /-- Whether local stdin is a real terminal (`term.IsTerminal`). -/
  isTerminal : Bool := false
  /-- Whether `term.MakeRaw` succeeds. -/
  makeRawOk : Bool := true
  /-- Whether `session.StdoutPipe` succeeds. -/
  stdoutPipeOk : Bool := true
  /-- Whether `session.StderrPipe` succeeds. -/
  stderrPipeOk : Bool := true
  /-- Whether `session.Start` succeeds. -/
  startOk : Bool := true
  /-- The successful reads from the merged stdout+stderr stream, in order;
  each read fills at most the 1024-byte buffer. -/
  chunks : List String := []
  /-- Outcome of `session.Wait`. -/
  wait : WaitOutcome := .ok

/-- Result of one `RunCommand` invocation, with the observable side effects
the claims are about: whether the SSH-dial code was reached, whether the
terminal was switched to raw mode and whether it was restored afterwards,
and what was echoed to the local terminal. -/
structure RunResult where
  res : Except String String
  sshDialed : Bool
  rawEntered : Bool := false
  rawRestored : Bool := false
  echoed : List String := []
deriving Repr

/-- The local branch's scan loop: `output` is overwritten with the trimmed
text of every scanned line, so it ends as the trimmed last line. -/
def scanLoop : List String → String → String
  | [], output => output
  | line :: rest, _ => scanLoop rest (goTrimSpace line)

/-- The remote branch's read loop: `output` is overwritten with every chunk
read from the merged stream, so it ends as the last chunk. -/
def readLoop : List String → String → String
  | [], output => output
  | chunk :: rest, _ => readLoop rest chunk

/-- Character set an argument may contain and still be left unquoted by
`shellquote.Join`. -/
def shellquoteSafeChar (c : Char) : Bool :=
  c.isAlphanum || c = '-' || c = '_' || c = '/' || c = '.' || c = ',' ||
    c = ':' || c = '=' || c = '@' || c = '%' || c = '^' || c = '+'

/-- Model of `shellquote.Join`: space-joined, single-quoting any word that
is empty or contains an unsafe character, with embedded single quotes
rewritten the usual way. -/
def shellquoteWord (w : String) : String :=
  if w = "" then "''"
  else if w.data.all shellquoteSafeChar then w
  else "'" ++ joinWith '\x27' ((splitChar '\x27' w).map (fun seg => seg)) ++ "'"

def shellquoteJoin (args : List String) : String :=
  joinWith ' ' (args.map shellquoteWord)

/-- The remote command line built by `RunCommand`:
`cd <dir> && [sudo] argv0 [quoted args...]`. -/
def remoteCommandString (c : Context) (args : List String) : String :=
  let base := "cd " ++ c.projectDir ++ " &&"
  let base := if c.runSudo then base ++ " sudo" else base
  let base := base ++ " " ++ args.headD ""
  if args.length > 1 then base ++ " " ++ shellquoteJoin args.tail else base

/-- The local branch of `RunCommand`. -/
def runCommandLocal (c : Context) (args : List String) (env : LocalEnv) :
    RunResult :=
  let _ := c.projectDir
  let _ := args
  if !env.stdoutPipeOk then
    { res := .error "error creating stdout pipe for command", sshDialed := false }
  else if !env.startOk then
    { res := .error "error starting command", sshDialed := false }
  else
    let output := scanLoop env.stdoutLines ""
    match env.waitErr with
    | some e =>
      ⟨.error ("error waiting for command: " ++ e), false, false, false,
        env.stdoutLines⟩
    | none => ⟨.ok output, false, false, false, env.stdoutLines⟩

/-- The remote branch of `RunCommand`: dial, build the command line, open a
session, request a PTY, enter raw mode when stdin is a terminal (with a
deferred restore covering every later exit path), wire the pipes, start,
drain the merged stream, and wait — treating exit status 130 as success. -/
def runCommandRemote (c : Context) (args : List String) (env : RemoteEnv) :
    RunResult :=
  if !env.dialOk then
    { res := .error "error establishing SSH connection", sshDialed := true }
  else
    let remoteCmd := remoteCommandString c args
    if !env.sessionOk then
      { res := .error "error creating SSH session", sshDialed := true }
    else if !env.ptyOk then
      { res := .error "error requesting pseudo terminal", sshDialed := true }
    else if env.isTerminal && !env.makeRawOk then
      { res := .error "failed to set terminal to raw mode", sshDialed := true }
    else
      -- from here on the deferred `term.Restore` runs on every return
      let rawEntered := env.isTerminal
      let ret := fun (r : Except String String) (echoed : List String) =>
        RunResult.mk r true rawEntered rawEntered echoed
      if !env.stdoutPipeOk then ret (.error "error obtaining stdout pipe") []
      else if !env.stderrPipeOk then ret (.error "error obtaining stderr pipe") []
      else if !env.startOk then
        ret (.error ("error starting remote command " ++ remoteCmd)) []
      else
        let output := readLoop env.chunks ""
        match env.wait with
        | .ok => ret (.ok output) env.chunks
        | .exitCode n =>
          if n = 130 then ret (.ok output) env.chunks
          else ret (.error ("error waiting for remote command " ++ remoteCmd))
            env.chunks
        | .otherErr e =>
          ret (.error ("error waiting for remote command " ++ remoteCmd ++ ": " ++ e))
            env.chunks

structure CmdEnv where
  localEnv : LocalEnv := {}
  remoteEnv : RemoteEnv := {}

/-- `config.Context.RunCommand`: dispatch on the context's host type. -/
def RunCommand (c : Context) (args : List String) (env : CmdEnv) : RunResult :=
  if c.dockerHostType = ContextType.ContextLocal then
    runCommandLocal c args env.localEnv
  else
    runCommandRemote c args env.remoteEnv

/-- C5: a local-context `RunCommand` runs the local-subprocess branch and
never reaches the SSH-dial code. -/
theorem runCommand_local_never_dials (c : Context) (args : List String)
    (env : CmdEnv) (h : c.dockerHostType = ContextType.ContextLocal) :
    RunCommand c args env = runCommandLocal c args env.localEnv ∧
    (RunCommand c args env).sshDialed = false := by
  have hdisp : RunCommand c args env = runCommandLocal c args env.localEnv := by
    simp [RunCommand, h]
  refine ⟨hdisp, ?_⟩
  rw [hdisp]
  unfold runCommandLocal
  cases hp : env.localEnv.stdoutPipeOk <;> cases hs : env.localEnv.startOk <;>
    cases hw : env.localEnv.waitErr <;> simp [hp, hs, hw]

/-- C5 witness. -/
theorem runCommand_local_never_dials_witness :
    (RunCommand contextW ["echo", "hello"] {}).sshDialed = false :=
  (runCommand_local_never_dials contextW ["echo", "hello"] {} rfl).2

def contextRemoteW : Context :=
  { dockerHostType := ContextType.ContextRemote, projectDir := "/srv/app",
    sshUser := "deploy", sshHostname := "site.example.com", sshPort := 22,
    sshKeyPath := "/home/deploy/.ssh/id_rsa" }

/-- C7: once the local terminal was successfully switched to raw mode, it is
restored on every exit path the remote branch can take afterwards (pipe
failures, start failure, output copying, wait success or any wait error). -/
theorem runCommand_restores_raw_terminal (c : Context) (args : List String)
    (env : CmdEnv) (hremote : c.dockerHostType = ContextType.ContextRemote)
    (hdial : env.remoteEnv.dialOk = true)
    (hsess : env.remoteEnv.sessionOk = true)
    (hpty : env.remoteEnv.ptyOk = true)
    (hterm : env.remoteEnv.isTerminal = true)
    (hraw : env.remoteEnv.makeRawOk = true) :
    (RunCommand c args env).rawEntered = true ∧
    (RunCommand c args env).rawRestored = true := by
  cases hp : env.remoteEnv.stdoutPipeOk <;>
    cases hq : env.remoteEnv.stderrPipeOk <;>
    cases hs : env.remoteEnv.startOk <;>
    cases hw : env.remoteEnv.wait <;>
    simp [RunCommand, runCommandRemote, hremote, hdial, hsess, hpty, hterm,
      hraw, hp, hq, hs, hw] <;>
    first
    | exact ⟨rfl, rfl⟩
    | exact fun h => ⟨rfl, rfl⟩
    | (split <;> exact ⟨rfl, rfl⟩)

/-- C7 witness: a failing remote command (exit status 1) on a raw-mode
terminal still restores the terminal. -/
theorem runCommand_restores_raw_terminal_witness :
    (RunCommand contextRemoteW ["docker", "ps"]
      { remoteEnv := { isTerminal := true, wait := .exitCode 1 } }).rawEntered = true ∧
    (RunCommand contextRemoteW ["docker", "ps"]
      { remoteEnv := { isTerminal := true, wait := .exitCode 1 } }).rawRestored = true :=
  runCommand_restores_raw_terminal contextRemoteW ["docker", "ps"]
    { remoteEnv := { isTerminal := true, wait := .exitCode 1 } }
    rfl rfl rfl rfl rfl rfl

/-- C2: in a remote-context `RunCommand` that reaches `session.Wait`, an
exit status of 130 yields the captured output with no error, while every
other non-zero exit status and every other session error yields an error. -/
theorem runCommand_remote_exit130_success (c : Context) (args : List String)
    (env : CmdEnv) (hremote : c.dockerHostType = ContextType.ContextRemote)
    (hdial : env.remoteEnv.dialOk = true)
    (hsess : env.remoteEnv.sessionOk = true)
    (hpty : env.remoteEnv.ptyOk = true)
    (hrawOkIf : env.remoteEnv.isTerminal = true → env.remoteEnv.makeRawOk = true)
    (hp : env.remoteEnv.stdoutPipeOk = true)
    (hq : env.remoteEnv.stderrPipeOk = true)
    (hs : env.remoteEnv.startOk = true) :
    (env.remoteEnv.wait = .exitCode 130 →
      (RunCommand c args env).res = .ok (readLoop env.remoteEnv.chunks "")) ∧
    (∀ n, env.remoteEnv.wait = .exitCode n → n ≠ 0 → n ≠ 130 →
      isErr (RunCommand c args env).res = true) ∧
    (∀ e, env.remoteEnv.wait = .otherErr e →
      isErr (RunCommand c args env).res = true) := by
  have hcond : (env.remoteEnv.isTerminal && !env.remoteEnv.makeRawOk) = false := by
    cases ht : env.remoteEnv.isTerminal
    · simp
    · simp [hrawOkIf ht]
  refine ⟨?_, ?_, ?_⟩
  · intro hw
    simp [RunCommand, runCommandRemote, hremote, hdial, hsess, hpty, hcond,
      hp, hq, hs, hw]
  · intro n hw hn0 hn130
    simp [RunCommand, runCommandRemote, hremote, hdial, hsess, hpty, hcond,
      hp, hq, hs, hw, hn130, isErr]
  · intro e hw
    simp [RunCommand, runCommandRemote, hremote, hdial, hsess, hpty, hcond,
      hp, hq, hs, hw, isErr]

/-- C2 witness: a remote session ending with exit status 130 returns the
captured output and no error; one ending with status 2 returns an error. -/
theorem runCommand_remote_exit130_success_witness :
    (RunCommand contextRemoteW ["docker", "ps"]
      { remoteEnv := { chunks := ["partial out"], wait := .exitCode 130 } }).res =
      .ok (readLoop ["partial out"] "") ∧
    isErr (RunCommand contextRemoteW ["docker", "ps"]
      { remoteEnv := { chunks := ["partial out"], wait := .exitCode 2 } }).res = true :=
  ⟨(runCommand_remote_exit130_success contextRemoteW ["docker", "ps"]
      { remoteEnv := { chunks := ["partial out"], wait := .exitCode 130 } }
      rfl rfl rfl rfl (fun h => by simp at h ⊢) rfl rfl rfl).1 rfl,
    (runCommand_remote_exit130_success contextRemoteW ["docker", "ps"]
      { remoteEnv := { chunks := ["partial out"], wait := .exitCode 2 } }
      rfl rfl rfl rfl (fun h => by simp at h ⊢) rfl rfl rfl).2.1 2 rfl
      (by decide) (by decide)⟩

/-- The final line of a piece of terminal output, as C9's wording reads:
the last non-empty `\n`-separated segment. -/
def finalLineOf (s : String) : String :=
  (((splitChar '\n' s).filter (fun l => l ≠ "")).getLastD "")

/-- C9 counterexample: a remote command whose merged output arrives as the
single chunk `"hello\nworld\n"` makes `RunCommand` return that whole chunk,
which is not the final line `"world"` of the output. -/
theorem runCommand_last_chunk_counterexample :
    (RunCommand contextRemoteW ["docker", "ps"]
      { remoteEnv := { chunks := ["hello\nworld\n"] } }).res =
      Except.ok "hello\nworld\n" ∧
    finalLineOf "hello\nworld\n" = "world" ∧
    ("hello\nworld\n" : String) ≠ "world" := by
  refine ⟨by decide, by decide, by decide⟩

theorem scanLoop_cons (rest : List String) (l init : String) :
    scanLoop (l :: rest) init = goTrimSpace (rest.getLastD l) := by
  induction rest generalizing l init with
  | nil => simp [scanLoop, List.getLastD]
  | cons m rest ih => rw [scanLoop, ih, List.getLastD_cons]

theorem scanLoop_last (lines : List String) :
    scanLoop lines "" = goTrimSpace (lines.getLastD "") := by
  cases lines with
  | nil => rfl
  | cons l rest => rw [scanLoop_cons, List.getLastD_cons]

theorem readLoop_cons (rest : List String) (ch init : String) :
    readLoop (ch :: rest) init = rest.getLastD ch := by
  induction rest generalizing ch init with
  | nil => simp [readLoop, List.getLastD]
  | cons m rest ih => rw [readLoop, ih, List.getLastD_cons]

theorem readLoop_last (chunks : List String) :
    readLoop chunks "" = chunks.getLastD "" := by
  cases chunks with
  | nil => rfl
  | cons ch rest => rw [readLoop_cons, List.getLastD_cons]

/-- C9 amended: on success the local branch returns the
whitespace-trimmed last stdout line and echoes every scanned line, while the
remote branch returns the bytes of the last successful read from the merged
stream (not necessarily a single line) and echoes every chunk as read. -/
theorem runCommand_last_output (cl cr : Context) (args : List String)
    (envl envr : CmdEnv)
    (hl : cl.dockerHostType = ContextType.ContextLocal)
    (hr : cr.dockerHostType = ContextType.ContextRemote)
    (hlp : envl.localEnv.stdoutPipeOk = true)
    (hls : envl.localEnv.startOk = true)
    (hlw : envl.localEnv.waitErr = none)
    (hrd : envr.remoteEnv.dialOk = true)
    (hrs : envr.remoteEnv.sessionOk = true)
    (hrp : envr.remoteEnv.ptyOk = true)
    (hrraw : envr.remoteEnv.isTerminal = true → envr.remoteEnv.makeRawOk = true)
    (hr1 : envr.remoteEnv.stdoutPipeOk = true)
    (hr2 : envr.remoteEnv.stderrPipeOk = true)
    (hr3 : envr.remoteEnv.startOk = true)
    (hrw : envr.remoteEnv.wait = .ok) :
    ((RunCommand cl args envl).res =
        .ok (goTrimSpace (envl.localEnv.stdoutLines.getLastD "")) ∧
      (RunCommand cl args envl).echoed = envl.localEnv.stdoutLines) ∧
    ((RunCommand cr args envr).res = .ok (envr.remoteEnv.chunks.getLastD "") ∧
      (RunCommand cr args envr).echoed = envr.remoteEnv.chunks) := by
  have hcond : (envr.remoteEnv.isTerminal && !envr.remoteEnv.makeRawOk) = false := by
    cases ht : envr.remoteEnv.isTerminal
    · simp
    · simp [hrraw ht]
  constructor
  · constructor <;>
      simp [RunCommand, runCommandLocal, hl, hlp, hls, hlw, scanLoop_last]
  · constructor <;>
      simp [RunCommand, runCommandRemote, hr, hrd, hrs, hrp, hcond, hr1, hr2,
        hr3, hrw, readLoop_last]

/-- C9 amended witness: a local run whose last stdout line carries spaces is
returned trimmed; a remote run returns its last chunk verbatim. -/
theorem runCommand_last_output_witness :
    ((RunCommand contextW ["make", "up"]
        { localEnv := { stdoutLines := ["first", "  last  "] } }).res =
      .ok (goTrimSpace (["first", "  last  "].getLastD "")) ∧
      (RunCommand contextW ["make", "up"]
        { localEnv := { stdoutLines := ["first", "  last  "] } }).echoed =
        ["first", "  last  "]) ∧
    ((RunCommand contextRemoteW ["make", "up"]
        { remoteEnv := { chunks := ["a\nb", "c"] } }).res =
      .ok ((["a\nb", "c"] : List String).getLastD "") ∧
      (RunCommand contextRemoteW ["make", "up"]
        { remoteEnv := { chunks := ["a\nb", "c"] } }).echoed = ["a\nb", "c"]) :=
  runCommand_last_output contextW contextRemoteW ["make", "up"]
    { localEnv := { stdoutLines := ["first", "  last  "] } }
    { remoteEnv := { chunks := ["a\nb", "c"] } }
    rfl rfl rfl rfl rfl rfl rfl rfl (fun h => by simp at h ⊢) rfl rfl rfl rfl

/-! ## `docker.DockerClient.GetContainerName` -/

def composeProjectLabel : String := "com.docker.compose.project"
def composeServiceLabel : String := "com.docker.compose.service"

/-- Standard Docker daemon semantics of the two label filters the code adds:
a container matches when it carries both compose labels with the given
values. -/
def matchesComposeFilters (projectName serviceName : String) (ct : Summary) :
    Bool :=
  ct.labels.contains (composeProjectLabel, projectName) &&
    ct.labels.contains (composeServiceLabel, serviceName)

/-- The Docker daemon as seen through `ContainerList`: the containers it
would report, and whether the list call errors. -/
structure DockerEnv where
  allContainers : List Summary := []
  listOk : Bool := true

/-- The nested loops at the end of `GetContainerName`: the first name of the
first listed container that has one; no names at all gives `""` with no
error. -/
def firstNameLoop : List Summary → Except String String
  | [] => .ok ""
  | ct :: rest =>
    match ct.names with
    | [] => firstNameLoop rest
    | n :: _ => .ok n

/-- `docker.DockerClient.GetContainerName`: suffix the service with
`-<Profile>` when a profile is set and not suppressed, list containers
filtered by the two compose labels, and return the first match's name. -/
def GetContainerName (denv : DockerEnv) (c : Context) (service : String)
    (neverPrefixProfile : Bool) : Except String String :=
  let service :=
    if c.profile ≠ "" && !neverPrefixProfile then service ++ "-" ++ c.profile
    else service
  if !denv.listOk then .error "error listing containers"
  else
    firstNameLoop
      (denv.allContainers.filter (matchesComposeFilters c.projectName service))

/-- C6: `GetContainerName` filters by the compose project/service labels with
the profile-suffixed service name exactly when a profile is set and not
suppressed, returns the first matching container's first name, and returns
`""` with no error when nothing matches. Stated for daemons whose matching
containers all carry at least one name, as real containers do. -/
theorem getContainerName_first_match (denv : DockerEnv) (c : Context)
    (service : String) (neverPrefixProfile : Bool)
    (hlist : denv.listOk = true)
    (hnames : ∀ ct ∈ denv.allContainers.filter
      (matchesComposeFilters c.projectName
        (if c.profile ≠ "" && !neverPrefixProfile then
          service ++ "-" ++ c.profile else service)), ct.names ≠ []) :
    GetContainerName denv c service neverPrefixProfile =
      .ok ((denv.allContainers.filter
        (matchesComposeFilters c.projectName
          (if c.profile ≠ "" && !neverPrefixProfile then
            service ++ "-" ++ c.profile else service))).headD ⟨[], []⟩
        |>.names.headD "") := by
  rw [GetContainerName]
  simp only [hlist, Bool.not_true, Bool.false_eq_true, if_false]
  generalize hf : denv.allContainers.filter
    (matchesComposeFilters c.projectName
      (if c.profile ≠ "" && !neverPrefixProfile then
        service ++ "-" ++ c.profile else service)) = matched at hnames ⊢
  cases matched with
  | nil => rfl
  | cons ct rest =>
    have hct : ct.names ≠ [] := hnames ct (by simp)
    cases hn : ct.names with
    | nil => exact absurd hn hct
    | cons n ns => simp [firstNameLoop, hn]

def summaryW : Summary :=
  { names := ["/myproj-solr-prod-1"],
    labels := [(composeProjectLabel, "myproj"), (composeServiceLabel, "solr-prod")] }

def dockerEnvW : DockerEnv := { allContainers := [summaryW] }

def contextProfileW : Context :=
  { dockerHostType := ContextType.ContextRemote, projectName := "myproj",
    profile := "prod" }

/-- C6 witness: a profile-suffixed service resolves to the first name of the
matching container; an unmatched service resolves to `""` with no error. -/
theorem getContainerName_first_match_witness :
    GetContainerName dockerEnvW contextProfileW "solr" false =
      .ok ((dockerEnvW.allContainers.filter
        (matchesComposeFilters contextProfileW.projectName
          (if contextProfileW.profile ≠ "" && !false then
            "solr" ++ "-" ++ contextProfileW.profile else "solr"))).headD ⟨[], []⟩
        |>.names.headD "") ∧
    GetContainerName dockerEnvW contextProfileW "mariadb" false = .ok "" :=
  ⟨getContainerName_first_match dockerEnvW contextProfileW "solr" false rfl
      (by decide),
    by decide⟩

/-! ## `config.Context.DialSSH` -/

inductive ParseKeyResult
  | parsedOk
  | passphraseMissing
  | failed (e : String)
deriving DecidableEq, Repr

/-- Outcome of `ssh.Dial`: success, a `knownhosts.KeyError` carrying the
keys the known-hosts file expected for the host (empty = host unknown,
non-empty = key mismatch), or any other error. -/
inductive SSHDialOutcome
  | success
  | keyError (want : List String)
  | otherError (msg : String)
deriving DecidableEq, Repr

structure SSHEnv where
  /-- `os.ReadFile` on the private key: `none` models a read error. -/
  keyFile : Option String := some "KEY"
  /-- `ssh.ParsePrivateKey` on the key material. -/
  parseKey : String → ParseKeyResult := fun _ => .parsedOk
  /-- `term.ReadPassword` for an encrypted key: `none` models a read error. -/
  readPassphrase : Option String := none
  /-- Whether `ssh.ParsePrivateKeyWithPassphrase` succeeds. -/
  parseKeyWithPass : String → String → Bool := fun _ _ => false
  /-- Whether `knownhosts.New` succeeds on the given known-hosts path. -/
  knownHostsNew : String → Bool := fun _ => true
  /-- Outcome of `ssh.Dial`. -/
  dial : SSHDialOutcome := .success

/-- Result of `DialSSH`, with the console lines it printed and the
known-hosts path it used (when it got that far). -/
structure DialSSHResult where
  res : Except String Unit
  printed : List String := []
  knownHostsPath : Option String := none

def hostNotKnownMsg : String :=
  "The host key for your remote context is not known."

def hostKeyMismatchMsg : String :=
  "The host key for your remote context does not match the expected key."

def sshSuggestionMsg (c : Context) : String :=
  "Try running `ssh -p " ++ toString c.sshPort ++ " -t " ++ c.sshUser ++ "@" ++
    c.sshHostname ++ "` and trying again"

/-- Whether the signer-acquisition phase of `DialSSH` succeeds: an
unencrypted key parses directly; an encrypted key needs the passphrase read
and a successful re-parse. -/
def signerObtained (env : SSHEnv) (key : String) : Bool :=
  match env.parseKey key with
  | .parsedOk => true
  | .passphraseMissing =>
    match env.readPassphrase with
    | none => false
    | some pass => env.parseKeyWithPass key pass
  | .failed _ => false

/-- The tail of `DialSSH` after a signer was obtained: build the known-hosts
path next to the key, create the host-key callback, dial, and on a
`knownhosts.KeyError` print the case-distinguishing diagnosis plus the
manual `ssh` suggestion before returning the dial error. -/
def dialSSHWithSigner (c : Context) (env : SSHEnv) : DialSSHResult :=
  let knownHostsPath := goFilepathJoin [goFilepathDir c.sshKeyPath, "known_hosts"]
  if !env.knownHostsNew knownHostsPath then
    { res := .error "error creating known_hosts callback",
      knownHostsPath := some knownHostsPath }
  else
    let sshAddr := c.sshHostname ++ ":" ++ toString c.sshPort
    match env.dial with
    | .success => { res := .ok (), knownHostsPath := some knownHostsPath }
    | .keyError want =>
      let msgs :=
        if want.isEmpty then
          [hostNotKnownMsg,
            "This means your SSH known_hosts file doesn't have an entry for this host."]
        else
          [hostKeyMismatchMsg,
            "This might indicate that the host's key has changed or that there could be a security issue.",
            "Please verify the new key with your host administrator.",
            "If the change is legitimate, update your known_hosts file by removing the old key and adding the new one."]
      { res := .error ("error dialing SSH at " ++ sshAddr),
        printed := msgs ++ [sshSuggestionMsg c],
        knownHostsPath := some knownHostsPath }
    | .otherError e =>
      { res := .error ("error dialing SSH at " ++ sshAddr ++ ": " ++ e),
        knownHostsPath := some knownHostsPath }

/-- `config.Context.DialSSH`: read and parse the key (prompting for a
passphrase when encrypted), then verify the host and dial. -/
def DialSSH (c : Context) (env : SSHEnv) : DialSSHResult :=
  match env.keyFile with
  | none => { res := .error "error reading SSH key" }
  | some key =>
    match env.parseKey key with
    | .parsedOk => dialSSHWithSigner c env
    | .passphraseMissing =>
      match env.readPassphrase with
      | none => { res := .error "error reading passphrase" }
      | some pass =>
        if env.parseKeyWithPass key pass then dialSSHWithSigner c env
        else { res := .error "error parsing SSH key with passphrase" }
    | .failed e => { res := .error ("error parsing SSH key: " ++ e) }

theorem dialSSH_of_signer (c : Context) (env : SSHEnv) (key : String)
    (hkey : env.keyFile = some key) (hsigner : signerObtained env key = true) :
    DialSSH c env = dialSSHWithSigner c env := by
  rcases hp : env.parseKey key with _ | _ | e
  · simp [DialSSH, hkey, hp]
  · rw [signerObtained, hp] at hsigner
    rcases hr : env.readPassphrase with _ | pass
    · rw [hr] at hsigner
      exact absurd hsigner (by simp)
    · rw [hr] at hsigner
      have hps : env.parseKeyWithPass key pass = true := hsigner
      simp [DialSSH, hkey, hp, hr, hps]
  · rw [signerObtained, hp] at hsigner
    exact absurd hsigner (by simp)

/-- C8: `DialSSH` checks the host against the `known_hosts` file in the
directory of the SSH key; on a host-key verification failure it returns a
non-nil error and prints a diagnosis that distinguishes an unknown host
(no expected keys) from a changed key (expected keys present), in both cases
suggesting a manual `ssh` verification command. -/
theorem dialSSH_distinguishes_hostkey_failures (c : Context) (env : SSHEnv)
    (key : String) (hkey : env.keyFile = some key)
    (hsigner : signerObtained env key = true)
    (hkh : env.knownHostsNew
      (goFilepathJoin [goFilepathDir c.sshKeyPath, "known_hosts"]) = true) :
    hostNotKnownMsg ≠ hostKeyMismatchMsg ∧
    (DialSSH c env).knownHostsPath =
      some (goFilepathJoin [goFilepathDir c.sshKeyPath, "known_hosts"]) ∧
    (env.dial = .keyError [] →
      isErr (DialSSH c env).res = true ∧
      (DialSSH c env).printed.head? = some hostNotKnownMsg ∧
      sshSuggestionMsg c ∈ (DialSSH c env).printed) ∧
    (∀ w ws, env.dial = .keyError (w :: ws) →
      isErr (DialSSH c env).res = true ∧
      (DialSSH c env).printed.head? = some hostKeyMismatchMsg ∧
      sshSuggestionMsg c ∈ (DialSSH c env).printed) := by
  rw [dialSSH_of_signer c env key hkey hsigner]
  refine ⟨by decide, ?_, ?_, ?_⟩
  · rw [dialSSHWithSigner]
    simp only [hkh, Bool.not_true, Bool.false_eq_true, if_false]
    cases env.dial <;> simp
  · intro hd
    rw [dialSSHWithSigner]
    simp [hkh, hd, isErr]
  · intro w ws hd
    rw [dialSSHWithSigner]
    simp [hkh, hd, isErr]

def sshEnvUnknownHostW : SSHEnv := { dial := .keyError [] }

/-- C8 witness: an unknown host produces a non-nil error, the
unknown-host diagnosis and the manual `ssh` suggestion. -/
theorem dialSSH_distinguishes_hostkey_failures_witness :
    (DialSSH contextRemoteW sshEnvUnknownHostW).knownHostsPath =
      some (goFilepathJoin
        [goFilepathDir contextRemoteW.sshKeyPath, "known_hosts"]) ∧
    (isErr (DialSSH contextRemoteW sshEnvUnknownHostW).res = true ∧
      (DialSSH contextRemoteW sshEnvUnknownHostW).printed.head? =
        some hostNotKnownMsg ∧
      sshSuggestionMsg contextRemoteW ∈
        (DialSSH contextRemoteW sshEnvUnknownHostW).printed) :=
  ⟨(dialSSH_distinguishes_hostkey_failures contextRemoteW sshEnvUnknownHostW
      "KEY" rfl rfl rfl).2.1,
    (dialSSH_distinguishes_hostkey_failures contextRemoteW sshEnvUnknownHostW
      "KEY" rfl rfl rfl).2.2.1 rfl⟩

/-! ## `cmd.portForwardCmd` (the port-forward operation)

The TCP stack, the Docker daemon and the SSH tunnel are external; `PFEnv`
fixes the outcome of binding a local port and of resolving a service to a
container and to its network IP. -/

structure PFEnv where
  /-- Whether `net.Listen "tcp" "localhost:<port>"` succeeds. -/
  listenOk : Int → Bool := fun _ => true
  /-- Outcome of `cli.GetContainerName` for a service. -/
  getContainerName : String → Except String String := fun _ => .ok ""
  /-- Outcome of `cli.GetServiceIp` for a container name. -/
  getServiceIp : String → Except String String := fun _ => .ok ""

/-- Result of the port-forward operation: its return value, and the local
ports whose listeners are still open at the moment it returns. -/
structure PFResult where
  res : Except String Unit
  openPorts : List Int
deriving DecidableEq, Repr

/-- The spec-processing loop of `portForwardCmd`: for each spec in order,
split on `:` into exactly three segments, `Atoi` both ports, bind the local
listener, then resolve the service's container and IP — returning on the
first failure with every previously bound listener (and, after a successful
bind, the current one) still open. After the loop the run blocks on a
signal and closes every listener, so a completed run leaves none open. -/
def portForwardLoop (env : PFEnv) (args : List String) (bound : List Int) :
    PFResult :=
  match args with
  | [] => ⟨.ok (), []⟩
  | arg :: rest =>
    match splitChar ':' arg with
    | [localPortStr, service, remotePortStr] =>
      match goAtoi localPortStr with
      | none =>
        ⟨.error ("invalid local port " ++ localPortStr ++ ": must be an integer"),
          bound⟩
      | some localPort =>
        match goAtoi remotePortStr with
        | none =>
          ⟨.error ("invalid remote port " ++ remotePortStr ++
            ": must be an integer"), bound⟩
        | some _remotePort =>
          if !env.listenOk localPort then
            ⟨.error ("local port " ++ toString localPort ++
              " appears to be in use"), bound⟩
          else
            let bound := bound ++ [localPort]
            match env.getContainerName service with
            | .error e => ⟨.error e, bound⟩
            | .ok containerName =>
              match env.getServiceIp containerName with
              | .error e => ⟨.error e, bound⟩
              | .ok _serviceIp => portForwardLoop env rest bound
    | _ =>
      ⟨.error ("invalid port forwarding spec " ++ arg ++
        ": expected format LOCAL-PORT:SERVICE:REMOTE-PORT"), bound⟩

/-- `RunPortForward`: process the specs, then (on success) block until a
signal and shut every listener down. -/
def RunPortForward (env : PFEnv) (args : List String) : PFResult :=
  portForwardLoop env args []

/-- The claim's well-formedness test for one spec, returning its local port:
exactly three `:`-separated segments with both ports `Atoi`-parseable. -/
def specLocalPort (arg : String) : Option Int :=
  match splitChar ':' arg with
  | [localPortStr, _, remotePortStr] =>
    match goAtoi localPortStr, goAtoi remotePortStr with
    | some lp, some _ => some lp
    | _, _ => none
  | _ => none

/-- Whether every runtime step of one well-formed spec succeeds in `env`:
the local bind, the container lookup and the IP lookup. -/
def specStepsOk (env : PFEnv) (arg : String) : Bool :=
  match splitChar ':' arg with
  | [localPortStr, service, remotePortStr] =>
    match goAtoi localPortStr, goAtoi remotePortStr with
    | some lp, some _ =>
      env.listenOk lp &&
        (match env.getContainerName service with
        | .error _ => false
        | .ok containerName =>
          match env.getServiceIp containerName with
          | .error _ => false
          | .ok _ => true)
    | _, _ => false
  | _ => false

def pfEnvAllOk : PFEnv :=
  { listenOk := fun _ => true,
    getContainerName := fun _ => .ok "/myproj-solr-1",
    getServiceIp := fun _ => .ok "172.18.0.5" }

/-- C1 counterexample: with the two specs `["8983:solr:8983", "bad"]` the
operation returns an error for the malformed second spec, yet the listener
bound for the first spec is still open — validation does not complete before
binding starts, so the claim's "zero local listeners left open" fails. -/
theorem runPortForward_counterexample :
    isErr (RunPortForward pfEnvAllOk ["8983:solr:8983", "bad"]).res = true ∧
    (RunPortForward pfEnvAllOk ["8983:solr:8983", "bad"]).openPorts = [8983] ∧
    ([8983] : List Int) ≠ [] := by
  refine ⟨by decide, by decide, by decide⟩

theorem portForwardLoop_steps_ok (env : PFEnv) (arg : String)
    (lp : Int) (hwf : specLocalPort arg = some lp)
    (hok : specStepsOk env arg = true) (args : List String) (bound : List Int) :
    portForwardLoop env (arg :: args) bound =
      portForwardLoop env args (bound ++ [lp]) := by
  rcases hs : splitChar ':' arg with _ | ⟨a, tl⟩
  · exact absurd hs (splitCharAux_ne_nil ':' arg.data [])
  rcases tl with _ | ⟨b, tl2⟩
  · exact absurd hwf (by simp [specLocalPort, hs])
  rcases tl2 with _ | ⟨c, tl3⟩
  · exact absurd hwf (by simp [specLocalPort, hs])
  rcases tl3 with _ | ⟨d, tl4⟩
  · rcases h1 : goAtoi a with _ | l
    · exact absurd hwf (by simp [specLocalPort, hs, h1])
    rcases h2 : goAtoi c with _ | r
    · exact absurd hwf (by simp [specLocalPort, hs, h1, h2])
    have hl : l = lp := by simpa [specLocalPort, hs, h1, h2] using hwf
    subst hl
    have hok2 := hok
    simp only [specStepsOk, hs, h1, h2, Bool.and_eq_true] at hok2
    obtain ⟨hlisten, hres⟩ := hok2
    rcases hcn : env.getContainerName b with e | cn
    · rw [hcn] at hres
      exact absurd hres (by simp)
    rcases hip : env.getServiceIp cn with e | ip
    · rw [hcn] at hres
      simp [hip] at hres
    · simp [portForwardLoop, hs, h1, h2, hlisten, hcn, hip]
  · exact absurd hwf (by simp [specLocalPort, hs])

theorem portForwardLoop_malformed (env : PFEnv) (bad : String)
    (hbad : specLocalPort bad = none) (rest : List String) (bound : List Int) :
    isErr (portForwardLoop env (bad :: rest) bound).res = true ∧
    (portForwardLoop env (bad :: rest) bound).openPorts = bound := by
  rcases hs : splitChar ':' bad with _ | ⟨a, tl⟩
  · exact absurd hs (splitCharAux_ne_nil ':' bad.data [])
  rcases tl with _ | ⟨b, tl2⟩
  · simp [portForwardLoop, hs, isErr]
  rcases tl2 with _ | ⟨c, tl3⟩
  · simp [portForwardLoop, hs, isErr]
  rcases tl3 with _ | ⟨d, tl4⟩
  · rcases h1 : goAtoi a with _ | l
    · simp [portForwardLoop, hs, h1, isErr]
    rcases h2 : goAtoi c with _ | r
    · simp [portForwardLoop, hs, h1, h2, isErr]
    · exact absurd hbad (by simp [specLocalPort, hs, h1, h2])
  · simp [portForwardLoop, hs, isErr]

/-- C1 amended: a malformed spec (wrong segment count or a non-integer
port) still aborts the whole operation with an error, but specs are
validated and bound one spec at a time, not validated up front: the
listeners bound for the well-formed specs processed before the first
malformed one remain open when the error is returned. Nothing is bound
exactly when the malformed spec comes first. -/
theorem runPortForward_malformed_partial_bind (env : PFEnv)
    (pre : List String) (bad : String) (rest : List String)
    (hpre : ∀ a ∈ pre, specStepsOk env a = true)
    (hbad : specLocalPort bad = none) :
    isErr (RunPortForward env (pre ++ bad :: rest)).res = true ∧
    (RunPortForward env (pre ++ bad :: rest)).openPorts =
      pre.filterMap specLocalPort := by
  rw [RunPortForward]
  suffices h : ∀ bound, isErr (portForwardLoop env (pre ++ bad :: rest) bound).res = true ∧
      (portForwardLoop env (pre ++ bad :: rest) bound).openPorts =
        bound ++ pre.filterMap specLocalPort by
    simpa using h []
  induction pre with
  | nil =>
    intro bound
    simpa using portForwardLoop_malformed env bad hbad rest bound
  | cons a pre ih =>
    intro bound
    have hok : specStepsOk env a = true := hpre a (by simp)
    have hwf : ∃ lp, specLocalPort a = some lp := by
      rcases hs : splitChar ':' a with _ | ⟨x, tl⟩
      · exact absurd hs (splitCharAux_ne_nil ':' a.data [])
      rcases tl with _ | ⟨y, tl2⟩
      · exact absurd hok (by simp [specStepsOk, hs])
      rcases tl2 with _ | ⟨z, tl3⟩
      · exact absurd hok (by simp [specStepsOk, hs])
      rcases tl3 with _ | ⟨w, tl4⟩
      · rcases h1 : goAtoi x with _ | l
        · exact absurd hok (by simp [specStepsOk, hs, h1])
        rcases h2 : goAtoi z with _ | r
        · exact absurd hok (by simp [specStepsOk, hs, h1, h2])
        · exact ⟨l, by simp [specLocalPort, hs, h1, h2]⟩
      · exact absurd hok (by simp [specStepsOk, hs])
    rcases hwf with ⟨lp, hlp⟩
    rw [List.cons_append,
      portForwardLoop_steps_ok env a lp hlp hok (pre ++ bad :: rest) bound]
    have := ih (fun x hx => hpre x (by simp [hx])) (bound ++ [lp])
    rcases this with ⟨h1, h2⟩
    refine ⟨h1, ?_⟩
    rw [h2, List.filterMap_cons, hlp]
    simp

/-- C1 amended witness: one well-formed spec followed by a malformed one
returns an error with exactly the first spec's listener open. -/
theorem runPortForward_malformed_partial_bind_witness :
    isErr (RunPortForward pfEnvAllOk (["8983:solr:8983"] ++ "bad" :: [])).res = true ∧
    (RunPortForward pfEnvAllOk (["8983:solr:8983"] ++ "bad" :: [])).openPorts =
      ["8983:solr:8983"].filterMap specLocalPort :=
  runPortForward_malformed_partial_bind pfEnvAllOk ["8983:solr:8983"] "bad" []
    (by decide) (by decide)

end Sitectl
